import Mathlib

/-!
ELLA-App: the shared settings store, the Settings screen and the
authentication handlers.

A shallow embedding of

* `src/frontend/components/SettingsContext.js` (`SettingsProvider`),
* `src/frontend/Screen/Settings.js` (`Settings`),
* `src/ELLA/Screen/SignUp.js` (`handleEmailSignUp`, `handleGoogleSignIn`),
* `src/ELLA/Screen/StartUp.js` (`handleForgotPass`, `handleEmailSignIn`,
  `handleGoogleSignIn`),
* `src/ELLA/Screen/NameEntry.js` (`handleNameEntry`),

together with the properties the specification states about them.

React state cells (`useState`) are modelled by explicit state passing: a
component's state is a record, and a setter is a function from record to
record giving the state seen by the next render.
-/

namespace ELLA

/-! ## JavaScript values -/

/-- The JavaScript values the application stores and passes around.  A finite
JavaScript number is an IEEE double, hence a rational; the code never does
arithmetic on the numbers it stores, so `ℚ` represents each of them exactly. -/
inductive JSValue where
  | undefined : JSValue
  | null : JSValue
  | bool (b : Bool) : JSValue
  | num (q : ℚ) : JSValue
  | str (s : String) : JSValue
  deriving DecidableEq

/-- The argument of a setter returned by React's `useState`: a plain value
replaces the state, a function is called with the previous state and its
result replaces the state. -/
inductive SetStateAction where
  | value (v : JSValue) : SetStateAction
  | updater (f : JSValue → JSValue) : SetStateAction

/-- The next state of a `useState` cell after its setter is called. -/
def SetStateAction.apply : SetStateAction → JSValue → JSValue
  | .value v, _ => v
  | .updater f, prev => f prev

/-! ## `SettingsContext.js`: the settings store -/

/-- The four state cells of `SettingsProvider` (SettingsContext.js lines 6-9),
each of which holds whatever value its setter was last given. -/
structure SettingsStore where
  textSize : JSValue
  musicVolume : JSValue
  soundVolume : JSValue
  notificationsEnabled : JSValue
  deriving DecidableEq

namespace SettingsProvider

/-- The store on first render: the `useState` initial values
`"medium"`, `0.5`, `0.5`, `true`. -/
def initial : SettingsStore where
  textSize := .str "medium"
  musicVolume := .num 0.5
  soundVolume := .num 0.5
  notificationsEnabled := .bool true

/-- The setter `setTextSize` of the `textSize` cell. -/
def setTextSize (a : SetStateAction) (s : SettingsStore) : SettingsStore :=
  { s with textSize := a.apply s.textSize }

/-- The setter `setMusicVolume` of the `musicVolume` cell. -/
def setMusicVolume (a : SetStateAction) (s : SettingsStore) : SettingsStore :=
  { s with musicVolume := a.apply s.musicVolume }

/-- The setter `setSoundVolume` of the `soundVolume` cell. -/
def setSoundVolume (a : SetStateAction) (s : SettingsStore) : SettingsStore :=
  { s with soundVolume := a.apply s.soundVolume }

/-- The setter `setNotificationsEnabled` of the `notificationsEnabled` cell. -/
def setNotificationsEnabled (a : SetStateAction) (s : SettingsStore) : SettingsStore :=
  { s with notificationsEnabled := a.apply s.notificationsEnabled }

end SettingsProvider

/-- One call of one of the four setters the context value exposes. -/
inductive SetterCall where
  | setTextSize (a : SetStateAction) : SetterCall
  | setMusicVolume (a : SetStateAction) : SetterCall
  | setSoundVolume (a : SetStateAction) : SetterCall
  | setNotificationsEnabled (a : SetStateAction) : SetterCall

/-- The store after one setter call. -/
def SettingsStore.call (s : SettingsStore) : SetterCall → SettingsStore
  | .setTextSize a => SettingsProvider.setTextSize a s
  | .setMusicVolume a => SettingsProvider.setMusicVolume a s
  | .setSoundVolume a => SettingsProvider.setSoundVolume a s
  | .setNotificationsEnabled a => SettingsProvider.setNotificationsEnabled a s

/-- The store after a sequence of setter calls, first call first. -/
def SettingsStore.run (s : SettingsStore) (cs : List SetterCall) : SettingsStore :=
  cs.foldl SettingsStore.call s

/-- A store state is reachable when some sequence of setter calls produces it
from the initial store. -/
def SettingsStore.Reachable (s : SettingsStore) : Prop :=
  ∃ cs : List SetterCall, SettingsProvider.initial.run cs = s

/-- The three text sizes the application knows (Settings.js line 68). -/
def textSizes : List String := ["small", "medium", "large"]

/-- The value is a number in the closed interval from 0 to 1. -/
def JSValue.inUnitInterval : JSValue → Prop
  | .num q => 0 ≤ q ∧ q ≤ 1
  | _ => False

/-- The value is one of the three text-size strings. -/
def JSValue.isTextSize : JSValue → Prop
  | .str s => s ∈ textSizes
  | _ => False

/-- The domain invariant of the specification's data model: both volumes in
`[0, 1]`, `textSize` one of the three sizes. -/
def SettingsStore.InDomain (s : SettingsStore) : Prop :=
  s.musicVolume.inUnitInterval ∧ s.soundVolume.inUnitInterval ∧ s.textSize.isTextSize

/-- A setter call whose argument is a plain value of the field's domain. -/
def SetterCall.ArgInDomain : SetterCall → Prop
  | .setTextSize (.value v) => v.isTextSize
  | .setMusicVolume (.value v) => v.inUnitInterval
  | .setSoundVolume (.value v) => v.inUnitInterval
  | .setNotificationsEnabled _ => True
  | _ => False

instance (v : JSValue) : Decidable v.inUnitInterval := by
  cases v <;> unfold JSValue.inUnitInterval <;> infer_instance

instance (v : JSValue) : Decidable v.isTextSize := by
  cases v <;> unfold JSValue.isTextSize <;> infer_instance

instance (s : SettingsStore) : Decidable s.InDomain := by
  unfold SettingsStore.InDomain; infer_instance

/-! ## `Settings.js`: the Settings screen -/

/-- The state the Settings screen renders from: the context value it obtains
with `useContext(SettingsContext)` (of which it takes `textSize` and
`setTextSize`, line 9) and its own three state cells `music`, `sound`,
`notifEnabled` (lines 11-13). -/
structure SettingsScreen where
  store : SettingsStore
  music : JSValue
  sound : JSValue
  notifEnabled : JSValue
  deriving DecidableEq

/-- One text-size button as rendered (Settings.js lines 68-86): the size it
stands for, and whether it carries the active style (`textSize === size`). -/
structure SizeButton where
  size : String
  active : Bool
  deriving DecidableEq

/-- What the controls of the Settings screen display. -/
structure SettingsView where
  musicSlider : JSValue
  soundSlider : JSValue
  notifSwitch : JSValue
  sizeButtons : List SizeButton
  deriving DecidableEq

/-- A user interaction with a control of the Settings screen. -/
inductive SettingsEvent where
  | musicSlider (v : ℚ) : SettingsEvent
  | soundSlider (v : ℚ) : SettingsEvent
  | notifSwitch (b : Bool) : SettingsEvent
  | pressSizeButton (i : Nat) : SettingsEvent
  deriving DecidableEq

namespace Settings

/-- The screen when it mounts under a provider whose store is `store`:
`useState(0.5)`, `useState(0.5)`, `useState(true)`. -/
def mount (store : SettingsStore) : SettingsScreen where
  store := store
  music := .num 0.5
  sound := .num 0.5
  notifEnabled := .bool true

/-- The rendered controls: `value={music}`, `value={sound}`,
`value={notifEnabled}`, and one button per entry of
`["small", "medium", "large"]`, active when `textSize === size`. -/
def render (st : SettingsScreen) : SettingsView where
  musicSlider := st.music
  soundSlider := st.sound
  notifSwitch := st.notifEnabled
  sizeButtons := textSizes.map fun size =>
    { size := size, active := decide (st.store.textSize = .str size) }

/-- The screen state after an interaction: `onValueChange={setMusic}`,
`onValueChange={setSound}`, `onValueChange={setNotifEnabled}`, and
`onPress={() => setTextSize(size)}` for the i-th rendered button. -/
def handle (st : SettingsScreen) : SettingsEvent → SettingsScreen
  | .musicSlider v => { st with music := .num v }
  | .soundSlider v => { st with sound := .num v }
  | .notifSwitch b => { st with notifEnabled := .bool b }
  | .pressSizeButton i =>
    match textSizes[i]? with
    | some size => { st with store := SettingsProvider.setTextSize (.value (.str size)) st.store }
    | none => st

end Settings

/-! ## The effects of an event handler -/

/-- A thrown JavaScript error object: its `name`, its `code` property
(`undefined` when it has none) and its `message`. -/
structure JSError where
  name : String
  code : JSValue
  message : JSValue
  deriving DecidableEq

/-- The error thrown when an identifier that is bound nowhere in scope is
evaluated.  It has no `code` property; the wording of its message is the
engine's. -/
def referenceError (ident : String) : JSError where
  name := "ReferenceError"
  code := .undefined
  message := .str (ident ++ " is not defined")

/-- An argument of `Alert.alert` in the calls that pass more than a title and
a message: a plain value, an array of buttons (each given by its `text`), or
an options object with its `cancelable` property. -/
inductive AlertArg where
  | value (v : JSValue) : AlertArg
  | buttons (texts : List String) : AlertArg
  | options (cancelable : Bool) : AlertArg
  deriving DecidableEq

/-- An observable action of a handler, in the order the handler performs them. -/
inductive Effect where
  | alert (title message : JSValue) : Effect
  | alertWith (args : List AlertArg) : Effect
  | navigate (screen : String) : Effect
  | navigateWith (screen : String) (params : List (String × JSValue)) : Effect
  | setIsSubmitting (b : Bool) : Effect
  | hasPlayServices : Effect
  | googleSignIn : Effect
  | consoleLog : Effect
  | setLoading (b : Bool) : Effect
  | createUserWithEmailAndPassword (email password : String) : Effect
  | signInWithEmailAndPassword (email password : String) : Effect
  | sendPasswordResetEmail (email : String) : Effect
  deriving DecidableEq

/-- The state a handler run threads through: the `loading` cell of the
component (where it has one) and the actions performed so far. -/
structure HandlerState where
  loading : Bool
  trace : List Effect
  deriving DecidableEq

/-- A handler computation: from a state, either a value or a thrown error,
and the state reached.  The state survives a throw. -/
def Eff (α : Type) : Type := HandlerState → Except JSError α × HandlerState

namespace Eff

/-- Return a value. -/
def ret {α : Type} (a : α) : Eff α := fun w => (.ok a, w)

/-- Sequencing: a throw in the first computation skips the second. -/
def andThen {α β : Type} (m : Eff α) (f : α → Eff β) : Eff β := fun w =>
  match m w with
  | (.ok a, w1) => f a w1
  | (.error e, w1) => (.error e, w1)

/-- The statement `throw e`. -/
def throw {α : Type} (e : JSError) : Eff α := fun w => (.error e, w)

/-- Perform one observable action. -/
def emit (x : Effect) : Eff Unit := fun w => (.ok (), { w with trace := w.trace ++ [x] })

/-- The statement `try body catch (error) handler`. -/
def tryCatch {α : Type} (body : Eff α) (handler : JSError → Eff α) : Eff α := fun w =>
  match body w with
  | (.ok a, w1) => (.ok a, w1)
  | (.error e, w1) => handler e w1

/-- The statement `try body finally fin`: `fin` runs whatever `body` did; an
error thrown by `fin` replaces the outcome of `body`. -/
def tryFinally {α : Type} (body : Eff α) (fin : Eff Unit) : Eff α := fun w =>
  match body w with
  | (r, w1) =>
    match fin w1 with
    | (.ok _, w2) => (r, w2)
    | (.error e, w2) => (.error e, w2)

/-- Evaluate an identifier: it throws a `ReferenceError` unless the identifier
is bound in the scope. -/
def ref (scope : List String) (ident : String) : Eff Unit :=
  if ident ∈ scope then ret () else throw (referenceError ident)

/-- Run a handler from the state of a freshly mounted screen
(`loading` is `useState(false)`), giving its outcome and final state. -/
def run {α : Type} (m : Eff α) : Except JSError α × HandlerState :=
  m { loading := false, trace := [] }

end Eff

instance : Monad Eff where
  pure := Eff.ret
  bind := Eff.andThen

/-- The alerts of a trace, each with its title and message, in order. -/
def alertsOf (t : List Effect) : List (JSValue × JSValue) :=
  t.filterMap fun x => match x with
    | .alert title message => some (title, message)
    | _ => none

/-- The screens navigated to in a trace, in order. -/
def navigationsOf (t : List Effect) : List String :=
  t.filterMap fun x => match x with
    | .navigate screen => some screen
    | .navigateWith screen _ => some screen
    | _ => none

/-- Whether the entry is a call of `Alert.alert`, with any arguments. -/
def Effect.isAlert : Effect → Bool
  | .alert _ _ => true
  | .alertWith _ => true
  | _ => false

/-- Whether the entry is a call of the Google sign-in library that the
handler awaits. -/
def Effect.isGoogleCall : Effect → Bool
  | .hasPlayServices => true
  | .googleSignIn => true
  | _ => false

/-- The value of the `isSubmitting` cell after a trace that started with the
cell holding `b`: the argument of the last `setIsSubmitting` call, if any. -/
def isSubmittingAfter (b : Bool) : List Effect → Bool
  | [] => b
  | .setIsSubmitting v :: t => isSubmittingAfter v t
  | _ :: t => isSubmittingAfter b t

/-- The value of the `isSubmitting` cell at each awaited Google call of a
trace that started with the cell holding `b`, in order. -/
def isSubmittingAtGoogleCalls (b : Bool) : List Effect → List Bool
  | [] => []
  | .setIsSubmitting v :: t => isSubmittingAtGoogleCalls v t
  | .hasPlayServices :: t => b :: isSubmittingAtGoogleCalls b t
  | .googleSignIn :: t => b :: isSubmittingAtGoogleCalls b t
  | _ :: t => isSubmittingAtGoogleCalls b t

/-- The calls of the identity provider in a trace: true on those entries. -/
def Effect.isProviderCall : Effect → Bool
  | .createUserWithEmailAndPassword _ _ => true
  | .signInWithEmailAndPassword _ _ => true
  | .sendPasswordResetEmail _ => true
  | _ => false

/-- The identity provider (Firebase Auth), an external collaborator: each
operation answers a request with a user identifier or with a thrown error. -/
structure Provider where
  createUserWithEmailAndPassword : String → String → Except JSError String
  signInWithEmailAndPassword : String → String → Except JSError String
  sendPasswordResetEmail : String → Except JSError Unit

/-! ## JavaScript strings -/

/-- The code points `String.prototype.trim` removes: ECMAScript WhiteSpace
(tab, VT, FF, space, NBSP, ZWNBSP and the Unicode space separators) and
LineTerminator (LF, CR, LS, PS). -/
def isJSWhiteSpace (c : Char) : Bool :=
  c.toNat ∈ [0x9, 0xA, 0xB, 0xC, 0xD, 0x20, 0xA0, 0x1680, 0x2000, 0x2001, 0x2002, 0x2003,
    0x2004, 0x2005, 0x2006, 0x2007, 0x2008, 0x2009, 0x200A, 0x2028, 0x2029, 0x202F, 0x205F,
    0x3000, 0xFEFF]

/-- The result of `s.trim()`: the string without its leading and trailing white space. -/
def jsTrim (s : String) : String :=
  String.mk ((s.toList.dropWhile isJSWhiteSpace).reverse.dropWhile isJSWhiteSpace).reverse

/-- The value of `s.length`: the number of UTF-16 code units, two for a code
point beyond the basic plane. -/
def jsLength (s : String) : Nat :=
  (s.toList.map fun c => if c.toNat < 0x10000 then 1 else 2).sum

/-! ## The handler primitives, each resolving the identifiers it mentions -/

/-- The call `Alert.alert(title, message)`. -/
def alert (scope : List String) (title message : JSValue) : Eff Unit := do
  Eff.ref scope "Alert"
  Eff.emit (.alert title message)

/-- The call `console.log(...)`. -/
def consoleLog (scope : List String) : Eff Unit := do
  Eff.ref scope "console"
  Eff.emit .consoleLog

/-- The call `navigation.navigate(screen)`. -/
def navigate (scope : List String) (screen : String) : Eff Unit := do
  Eff.ref scope "navigation"
  Eff.emit (.navigate screen)

/-- The call `navigation.navigate(screen, params)`. -/
def navigateWith (scope : List String) (screen : String)
    (params : List (String × JSValue)) : Eff Unit := do
  Eff.ref scope "navigation"
  Eff.emit (.navigateWith screen params)

/-- The call `setIsSubmitting(b)`. -/
def setIsSubmitting (scope : List String) (b : Bool) : Eff Unit := do
  Eff.ref scope "setIsSubmitting"
  Eff.emit (.setIsSubmitting b)

/-- The call `setLoading(b)`: evaluates the identifier `setLoading`, then sets
the `loading` cell. -/
def setLoading (scope : List String) (b : Bool) : Eff Unit := do
  Eff.ref scope "setLoading"
  fun w => (.ok (), { w with loading := b, trace := w.trace ++ [.setLoading b] })

/-- Await the provider's answer: a rejection is thrown at the `await`. -/
def await {α : Type} : Except JSError α → Eff α
  | .ok a => Eff.ret a
  | .error e => Eff.throw e

/-- Whether a value is falsy in a JavaScript condition. -/
def JSValue.isFalsy : JSValue → Bool
  | .undefined => true
  | .null => true
  | .bool b => !b
  | .num q => decide (q = 0)
  | .str s => decide (s = "")

/-- The error thrown when a value that is not a function is called.  It has no
`code` property; the wording of its message is the engine's. -/
def typeError (message : String) : JSError where
  name := "TypeError"
  code := .undefined
  message := .str message

/-- What the alert library does with the arguments of a call
`Alert.alert(title, message, buttons, options)`, a library outside the
repository: it returns, or it throws.  This is React Native's implementation
for Android, which takes at most three buttons with
`buttons ? buttons.slice(0, 3) : [default]` and then pops them: a third
argument that is absent, falsy or an array is accepted, and any other third
argument (an options object, for one) makes the call throw a `TypeError`. -/
def androidAlert : List AlertArg → Except JSError Unit
  | _ :: _ :: .options _ :: _ => .error (typeError "buttons.slice is not a function")
  | _ :: _ :: .value v :: _ =>
    if v.isFalsy then .ok () else .error (typeError "buttons.slice is not a function")
  | _ => .ok ()

/-- The call `Alert.alert(...)` with the given argument list, where `lib` says
what the alert library does with these arguments: the call is made, and it
returns or throws as the library does. -/
def alertWith (scope : List String) (lib : List AlertArg → Except JSError Unit)
    (args : List AlertArg) : Eff Unit := do
  Eff.ref scope "Alert"
  Eff.emit (.alertWith args)
  await (lib args)

/-- Evaluate several identifiers, left to right. -/
def Eff.refs (scope : List String) : List String → Eff Unit
  | [] => Eff.ret ()
  | ident :: rest => do
    Eff.ref scope ident
    Eff.refs scope rest

/-- The identifiers every module can use without binding them. -/
def globalScope : List String := ["console", "require", "undefined"]

/-! ## `SignUp.js` -/

namespace SignUp

/-- The identifiers bound where the handlers of SignUp.js are defined: the
imports (lines 1-24), the module constants `auth` (line 26) and `styles`, the
component, and the constants of the component body (lines 29-35, 37, 75). -/
def scope : List String :=
  ["React", "useState", "useEffect", "View", "Text", "TextInput", "TouchableOpacity",
   "StyleSheet", "Alert", "ActivityIndicator", "Google", "WebBrowser", "Image", "Ionicons",
   "useNavigation", "app", "getAuth", "createUserWithEmailAndPassword", "GoogleSignin",
   "isSuccessResponse", "isErrorWithCode", "statusCodes", "auth", "SignUp", "styles",
   "navigation", "email", "setEmail", "password", "setPassword", "showPassword",
   "setShowPassword", "loading", "setLoading", "isSubmitting", "setIsSubmitting",
   "handleEmailSignUp", "handleGoogleSignIn"] ++ globalScope

/-- The `catch (error)` block of `handleEmailSignUp` (lines 59-69). -/
def handleEmailSignUpCatch (error : JSError) : Eff Unit := do
  consoleLog scope
  if error.code = .str "auth/email-already-in-use" then
    alert scope (.str "Error") (.str "Email is already in use")
  else if error.code = .str "auth/invalid-email" then
    alert scope (.str "Error") (.str "Invalid email address")
  else if error.code = .str "auth/weak-password" then
    alert scope (.str "Error") (.str "Password is too weak")
  else
    alert scope (.str "Error") error.message

/-- The `try` block of `handleEmailSignUp` (lines 46-58). -/
def handleEmailSignUpTry (P : Provider) (email password : String) : Eff Unit := do
  setLoading scope true
  Eff.refs scope ["createUserWithEmailAndPassword", "auth", "email", "password"]
  Eff.emit (.createUserWithEmailAndPassword (jsTrim email) password)
  let _response ← await (P.createUserWithEmailAndPassword (jsTrim email) password)
  consoleLog scope
  alert scope (.str "Success") (.str "Account created successfully!")
  navigate scope "NameEntry"

/-- The handler `handleEmailSignUp` (lines 37-73), run with the `email` and `password`
cells holding the given strings. -/
def handleEmailSignUp (P : Provider) (email password : String) : Eff Unit := do
  Eff.ref scope "email"
  let missing ← if email = "" then Eff.ret true else do
    Eff.ref scope "password"
    Eff.ret (decide (password = ""))
  if missing then
    alert scope (.str "Error") (.str "Please enter email and password")
  else do
    Eff.ref scope "password"
    if jsLength password < 6 then
      alert scope (.str "Error") (.str "Password must be at least 6 characters")
    else
      Eff.tryFinally
        (Eff.tryCatch (handleEmailSignUpTry P email password) handleEmailSignUpCatch)
        (setLoading scope false)

end SignUp

/-! ## `StartUp.js` -/

namespace StartUp

/-- The identifiers bound where the handlers of StartUp.js are defined: the
imports (lines 1-27), the module constant `styles`, the component and its
parameter `navigation` (line 29), and the constants of the component body
(lines 30, 38-41, 43, 73, 112).  The file binds neither `setLoading` nor
`auth`. -/
def scope : List String :=
  ["StatusBar", "StyleSheet", "Text", "View", "TouchableOpacity", "TextInput", "useEffect",
   "useState", "useFonts", "Ionicons", "Image", "useNavigation", "Alert", "app", "getAuth",
   "signInWithEmailAndPassword", "sendPasswordResetEmail", "GoogleSignin",
   "isSuccessResponse", "isErrorWithCode", "statusCodes", "StartUp", "styles",
   "navigation", "fontsLoaded", "showEmailForm", "setShowEmailForm", "email", "setEmail",
   "password", "setPassword", "isSubmitting", "setIsSubmitting", "handleForgotPass",
   "handleEmailSignIn", "handleGoogleSignIn"] ++ globalScope

/-- The `catch (error)` block of `handleForgotPass` (lines 58-67). -/
def handleForgotPassCatch (error : JSError) : Eff Unit := do
  consoleLog scope
  if error.code = .str "auth/user-not-found" then
    alert scope (.str "Error") (.str "No account found with this email.")
  else if error.code = .str "auth/invalid-email" then
    alert scope (.str "Error") (.str "Invalid email address.")
  else
    alert scope (.str "Error") error.message

/-- The `try` block of `handleForgotPass` (lines 49-57). -/
def handleForgotPassTry (P : Provider) (email : String) : Eff Unit := do
  setLoading scope true
  Eff.refs scope ["sendPasswordResetEmail", "auth", "email"]
  Eff.emit (.sendPasswordResetEmail (jsTrim email))
  await (P.sendPasswordResetEmail (jsTrim email))
  alert scope (.str "Password Reset Email Sent")
    (.str "Please check your inbox and follow the instructions to reset your password.")

/-- The handler `handleForgotPass` (lines 43-71), run with the `email` cell holding the
given string. -/
def handleForgotPass (P : Provider) (email : String) : Eff Unit := do
  Eff.ref scope "email"
  if email = "" then
    alert scope (.str "Error") (.str "Please enter your email address first.")
  else
    Eff.tryFinally
      (Eff.tryCatch (handleForgotPassTry P email) handleForgotPassCatch)
      (setLoading scope false)

/-- The `catch (error)` block of `handleEmailSignIn` (lines 96-107). -/
def handleEmailSignInCatch (error : JSError) : Eff Unit := do
  consoleLog scope
  if error.code = .str "auth/user-not-found" then
    alert scope (.str "Error") (.str "No account found with this email")
  else if error.code = .str "auth/wrong-password" then
    alert scope (.str "Error") (.str "Incorrect password")
  else if error.code = .str "auth/invalid-email" then
    alert scope (.str "Error") (.str "Invalid email address")
  else
    alert scope (.str "Error") error.message

/-- The `try` block of `handleEmailSignIn` (lines 79-95). -/
def handleEmailSignInTry (P : Provider) (email password : String) : Eff Unit := do
  setLoading scope true
  Eff.refs scope ["signInWithEmailAndPassword", "auth", "email", "password"]
  Eff.emit (.signInWithEmailAndPassword (jsTrim email) password)
  let _response ← await (P.signInWithEmailAndPassword (jsTrim email) password)
  consoleLog scope
  alert scope (.str "Success") (.str "Signed in successfully!")
  navigate scope "HomeScreen"

/-- The handler `handleEmailSignIn` (lines 73-111), run with the `email` and `password`
cells holding the given strings. -/
def handleEmailSignIn (P : Provider) (email password : String) : Eff Unit := do
  Eff.ref scope "email"
  let missing ← if email = "" then Eff.ret true else do
    Eff.ref scope "password"
    Eff.ret (decide (password = ""))
  if missing then
    alert scope (.str "Error") (.str "Please enter email and password")
  else
    Eff.tryFinally
      (Eff.tryCatch (handleEmailSignInTry P email password) handleEmailSignInCatch)
      (setLoading scope false)

end StartUp

/-! ## `handleGoogleSignIn` (SignUp.js lines 75-128, StartUp.js lines 112-165) -/

/-- The answer of `GoogleSignin.signIn()` as the library types it: a success
response carrying the token and the user record, or a cancelled response
without data. -/
inductive SignInResponse where
  | success (idToken name email photo : JSValue) : SignInResponse
  | cancelled : SignInResponse
  deriving DecidableEq

/-- The library function `isSuccessResponse`: the response is of type success. -/
def isSuccessResponse : SignInResponse → Bool
  | .success _ _ _ _ => true
  | .cancelled => false

/-- The Google sign-in library (`@react-native-google-signin/google-signin`),
an external collaborator: what awaiting `hasPlayServices()` and `signIn()`
gives, its predicate `isErrorWithCode`, and its two `statusCodes` constants
the handler compares with. -/
structure GoogleSignin where
  hasPlayServices : Except JSError Unit
  signIn : Except JSError SignInResponse
  isErrorWithCode : JSError → Bool
  IN_PROGRESS : JSValue
  PLAY_SERVICES_NOT_AVAILABLE : JSValue

/-- Whether the library hands the handler a success response: both awaited
calls resolve and the response of `signIn()` is of type success. -/
def GoogleSignin.returnsSuccess (G : GoogleSignin) : Bool :=
  match G.hasPlayServices, G.signIn with
  | .ok _, .ok response => isSuccessResponse response
  | _, _ => false

/-- The `try` block of `handleGoogleSignIn`, whose text is the same in both
screens; `scope` is the scope of the screen it stands in. -/
def handleGoogleSignInTry (scope : List String) (lib : List AlertArg → Except JSError Unit)
    (G : GoogleSignin) : Eff Unit := do
  setIsSubmitting scope true
  Eff.ref scope "GoogleSignin"
  Eff.emit .hasPlayServices
  await G.hasPlayServices
  Eff.ref scope "GoogleSignin"
  Eff.emit .googleSignIn
  let response ← await G.signIn
  Eff.ref scope "isSuccessResponse"
  if isSuccessResponse response then
    navigate scope "HomeScreen"
  else
    alertWith scope lib [.value (.str "Login Failed"),
      .value (.str "Your Google sign-in was unsuccessful. Please try again."),
      .buttons ["OK"], .options true]
  setIsSubmitting scope false

/-- The `catch (error)` block of `handleGoogleSignIn`. -/
def handleGoogleSignInCatch (scope : List String)
    (lib : List AlertArg → Except JSError Unit) (G : GoogleSignin) (error : JSError) :
    Eff Unit := do
  Eff.ref scope "isErrorWithCode"
  if G.isErrorWithCode error then do
    Eff.ref scope "statusCodes"
    if error.code = G.IN_PROGRESS then
      alertWith scope lib [.value (.str "Your Google sign-in is in progress"),
        .buttons ["OK"], .options true]
    else do
      Eff.ref scope "statusCodes"
      if error.code = G.PLAY_SERVICES_NOT_AVAILABLE then
        alertWith scope lib [.value (.str "Play services not available"),
          .buttons ["OK"], .options true]
      else
        alertWith scope lib [.value error.code, .buttons ["OK"], .options true]
  else
    alertWith scope lib [.value (.str "You fucked up!")]
  setIsSubmitting scope false

/-- The handler `handleGoogleSignIn` of SignUp.js (lines 75-128), run with the
alert library `lib` and the Google library `G`. -/
def SignUp.handleGoogleSignIn (lib : List AlertArg → Except JSError Unit)
    (G : GoogleSignin) : Eff Unit :=
  Eff.tryCatch (handleGoogleSignInTry SignUp.scope lib G)
    (handleGoogleSignInCatch SignUp.scope lib G)

/-- The handler `handleGoogleSignIn` of StartUp.js (lines 112-165), run with
the alert library `lib` and the Google library `G`. -/
def StartUp.handleGoogleSignIn (lib : List AlertArg → Except JSError Unit)
    (G : GoogleSignin) : Eff Unit :=
  Eff.tryCatch (handleGoogleSignInTry StartUp.scope lib G)
    (handleGoogleSignInCatch StartUp.scope lib G)

/-- A Google library on a device without Play services: `hasPlayServices()`
rejects with an error whose code is `statusCodes.PLAY_SERVICES_NOT_AVAILABLE`,
and `isErrorWithCode` holds of the errors that have a code. -/
def GoogleSignin.noPlayServices : GoogleSignin where
  hasPlayServices := .error
    { name := "Error", code := .str "PLAY_SERVICES_NOT_AVAILABLE",
      message := .str "Play services not available" }
  signIn := .ok .cancelled
  isErrorWithCode := fun e => decide (e.code ≠ .undefined)
  IN_PROGRESS := .str "IN_PROGRESS"
  PLAY_SERVICES_NOT_AVAILABLE := .str "PLAY_SERVICES_NOT_AVAILABLE"

/-! ## `NameEntry.js` -/

namespace NameEntry

/-- The identifiers bound where `handleNameEntry` is defined: the imports
(lines 1-14), the component (named `SignUp` in this file) and `styles`, and
the constants of the component body (lines 17-19, 21). -/
def scope : List String :=
  ["React", "useState", "View", "Text", "TextInput", "TouchableOpacity", "StyleSheet",
   "Ionicons", "Image", "Alert", "useNavigation", "Slider", "SignUp", "styles",
   "navigation", "name", "setName", "age", "setAge", "handleNameEntry"] ++ globalScope

/-- The handler `handleNameEntry` (lines 21-29), run with the `name` cell
holding the given string. -/
def handleNameEntry (name : String) : Eff Unit := do
  Eff.ref scope "name"
  if jsTrim name = "" then
    alert scope (.str "Error!") (.str "Please enter your name!")
  else do
    Eff.refs scope ["console", "name"]
    Eff.emit .consoleLog
    Eff.refs scope ["navigation", "name"]
    Eff.emit (.navigateWith "RoleSelect" [("userName", .str name)])

end NameEntry

/-- A provider that accepts every request, answering with the user
identifier `uid`. -/
def Provider.accepting (uid : String) : Provider where
  createUserWithEmailAndPassword := fun _ _ => .ok uid
  signInWithEmailAndPassword := fun _ _ => .ok uid
  sendPasswordResetEmail := fun _ => .ok ()

/-- A provider that rejects every request with the error `e`. -/
def Provider.rejecting (e : JSError) : Provider where
  createUserWithEmailAndPassword := fun _ _ => .error e
  signInWithEmailAndPassword := fun _ _ => .error e
  sendPasswordResetEmail := fun _ => .error e

/-! ## Theorems -/

open SettingsProvider

/-- C1: before any setter is called the settings store holds exactly
textSize = "medium", musicVolume = 0.5, soundVolume = 0.5 and
notificationsEnabled = true. -/
theorem C1_initial_store_defaults :
    (initial.run []).textSize = .str "medium" ∧
    (initial.run []).musicVolume = .num (1 / 2) ∧
    (initial.run []).soundVolume = .num (1 / 2) ∧
    (initial.run []).notificationsEnabled = .bool true := by
  refine ⟨rfl, ?_, ?_, rfl⟩ <;>
    simp [SettingsStore.run, initial] <;> norm_num

/-- A setter call with an in-domain argument keeps the store in its domain. -/
theorem SettingsStore.InDomain.call_of_arg {s : SettingsStore} (hs : s.InDomain)
    {c : SetterCall} (hc : c.ArgInDomain) : (s.call c).InDomain := by
  obtain ⟨hm, hsv, ht⟩ := hs
  cases c with
  | setTextSize a =>
    cases a with
    | value v => exact ⟨hm, hsv, hc⟩
    | updater f => exact absurd hc (by simp [SetterCall.ArgInDomain])
  | setMusicVolume a =>
    cases a with
    | value v => exact ⟨hc, hsv, ht⟩
    | updater f => exact absurd hc (by simp [SetterCall.ArgInDomain])
  | setSoundVolume a =>
    cases a with
    | value v => exact ⟨hm, hc, ht⟩
    | updater f => exact absurd hc (by simp [SetterCall.ArgInDomain])
  | setNotificationsEnabled a => exact ⟨hm, hsv, ht⟩

/-- Running in-domain setter calls from an in-domain store stays in the domain. -/
theorem SettingsStore.InDomain.run_of_args (cs : List SetterCall) :
    ∀ s : SettingsStore, s.InDomain → (∀ c ∈ cs, c.ArgInDomain) → (s.run cs).InDomain := by
  induction cs with
  | nil => intro s hs _; exact hs
  | cons c cs ih =>
    intro s hs hcs
    have hc : c.ArgInDomain := hcs c (List.mem_cons_self c cs)
    have hrest : ∀ d ∈ cs, d.ArgInDomain := fun d hd => hcs d (List.mem_cons_of_mem c hd)
    exact ih (s.call c) (hs.call_of_arg hc) hrest

/-- The initial store satisfies the domain invariant. -/
theorem initial_inDomain : initial.InDomain := by
  refine ⟨?_, ?_, ?_⟩
  · show (0 : ℚ) ≤ 0.5 ∧ (0.5 : ℚ) ≤ 1
    norm_num
  · show (0 : ℚ) ≤ 0.5 ∧ (0.5 : ℚ) ≤ 1
    norm_num
  · show "medium" ∈ textSizes
    decide

/-- C2, as stated, fails: the store after the single call
`setMusicVolume(1.5)` is reachable and its musicVolume, 1.5, is outside
`[0, 1]`; the store after the single call `setTextSize("huge")` is reachable
and its textSize is none of small, medium, large. -/
theorem C2_counterexample :
    ((initial.run [.setMusicVolume (.value (.num (3 / 2)))]).Reachable ∧
      (initial.run [.setMusicVolume (.value (.num (3 / 2)))]).musicVolume = .num (3 / 2) ∧
      ¬ (initial.run [.setMusicVolume (.value (.num (3 / 2)))]).InDomain) ∧
    ((initial.run [.setTextSize (.value (.str "huge"))]).Reachable ∧
      (initial.run [.setTextSize (.value (.str "huge"))]).textSize = .str "huge" ∧
      ¬ (initial.run [.setTextSize (.value (.str "huge"))]).InDomain) := by
  refine ⟨⟨⟨_, rfl⟩, rfl, fun h => ?_⟩, ⟨⟨_, rfl⟩, rfl, fun h => ?_⟩⟩
  · have h2 : (0 : ℚ) ≤ 3 / 2 ∧ (3 / 2 : ℚ) ≤ 1 := h.1
    norm_num at h2
  · have h2 : "huge" ∈ textSizes := h.2.2
    exact absurd h2 (by decide)

/-- C2 (amended): every state reached from the initial store by setter calls
whose arguments are plain values of the field's domain (a volume in `[0, 1]`,
one of the three sizes, anything for the notifications flag) has both volumes
in `[0, 1]` and a textSize among small, medium, large. -/
theorem C2_inDomain_of_inDomain_args (cs : List SetterCall)
    (hcs : ∀ c ∈ cs, c.ArgInDomain) : (initial.run cs).InDomain :=
  SettingsStore.InDomain.run_of_args cs initial initial_inDomain hcs

/-- Witness of C2 (amended): three in-domain setter calls. -/
theorem C2_inDomain_of_inDomain_args_witness :
    (∀ c ∈ [SetterCall.setMusicVolume (.value (.num 1)),
            SetterCall.setTextSize (.value (.str "large")),
            SetterCall.setNotificationsEnabled (.value (.bool false))], c.ArgInDomain) ∧
    (initial.run [SetterCall.setMusicVolume (.value (.num 1)),
            SetterCall.setTextSize (.value (.str "large")),
            SetterCall.setNotificationsEnabled (.value (.bool false))]).InDomain :=
  ⟨by simp [SetterCall.ArgInDomain, JSValue.inUnitInterval, JSValue.isTextSize, textSizes],
   C2_inDomain_of_inDomain_args _
    (by simp [SetterCall.ArgInDomain, JSValue.inUnitInterval, JSValue.isTextSize, textSizes])⟩

/-- C3: each of the four setters changes only its own field; the other three
fields read the same value after the call as before it, for every store state
and every argument. -/
theorem C3_setter_frame (s : SettingsStore) (a : SetStateAction) :
    ((setTextSize a s).musicVolume = s.musicVolume ∧
      (setTextSize a s).soundVolume = s.soundVolume ∧
      (setTextSize a s).notificationsEnabled = s.notificationsEnabled) ∧
    ((setMusicVolume a s).textSize = s.textSize ∧
      (setMusicVolume a s).soundVolume = s.soundVolume ∧
      (setMusicVolume a s).notificationsEnabled = s.notificationsEnabled) ∧
    ((setSoundVolume a s).textSize = s.textSize ∧
      (setSoundVolume a s).musicVolume = s.musicVolume ∧
      (setSoundVolume a s).notificationsEnabled = s.notificationsEnabled) ∧
    ((setNotificationsEnabled a s).textSize = s.textSize ∧
      (setNotificationsEnabled a s).musicVolume = s.musicVolume ∧
      (setNotificationsEnabled a s).soundVolume = s.soundVolume) :=
  ⟨⟨rfl, rfl, rfl⟩, ⟨rfl, rfl, rfl⟩, ⟨rfl, rfl, rfl⟩, ⟨rfl, rfl, rfl⟩⟩

/-- C4: for every store state and every v among small, medium, large, the
store read after `setTextSize(v)` has textSize equal to v. -/
theorem C4_setTextSize_roundtrip (s : SettingsStore) (v : String) (hv : v ∈ textSizes) :
    (s.run [.setTextSize (.value (.str v))]).textSize = .str v ∧
      (s.run [.setTextSize (.value (.str v))]).textSize.isTextSize :=
  ⟨rfl, hv⟩

/-- Witness of C4: setting "large" on the initial store. -/
theorem C4_setTextSize_roundtrip_witness :
    "large" ∈ textSizes ∧
      (initial.run [.setTextSize (.value (.str "large"))]).textSize = .str "large" :=
  ⟨by decide, (C4_setTextSize_roundtrip initial "large" (by decide)).1⟩

/-- C5: for every store state and every v in `[0, 1]`, the store read after
`setMusicVolume(v)` has musicVolume equal to v and the store read after
`setSoundVolume(v)` has soundVolume equal to v: the value is stored unmodified. -/
theorem C5_volume_roundtrip (s : SettingsStore) (v : ℚ) (h0 : 0 ≤ v) (h1 : v ≤ 1) :
    (s.run [.setMusicVolume (.value (.num v))]).musicVolume = .num v ∧
      (s.run [.setSoundVolume (.value (.num v))]).soundVolume = .num v ∧
      (JSValue.num v).inUnitInterval :=
  ⟨rfl, rfl, h0, h1⟩

/-- Witness of C5: the volume one quarter. -/
theorem C5_volume_roundtrip_witness :
    (initial.run [.setMusicVolume (.value (.num (1 / 4)))]).musicVolume = .num (1 / 4) ∧
      (initial.run [.setSoundVolume (.value (.num (1 / 4)))]).soundVolume = .num (1 / 4) :=
  ⟨(C5_volume_roundtrip initial (1 / 4) (by norm_num) (by norm_num)).1,
   (C5_volume_roundtrip initial (1 / 4) (by norm_num) (by norm_num)).2.1⟩

/-- C6: from a store whose notificationsEnabled is b, `setNotificationsEnabled(!b)`
gives notificationsEnabled = !b, a further call with b gives b again, and after
any call the flag is exactly the boolean supplied. -/
theorem C6_notifications_toggle (s : SettingsStore) (b : Bool)
    (hb : s.notificationsEnabled = .bool b) :
    (s.run [.setNotificationsEnabled (.value (.bool (!b)))]).notificationsEnabled
        = .bool (!b) ∧
      (s.run [.setNotificationsEnabled (.value (.bool (!b))),
              .setNotificationsEnabled (.value (.bool b))]).notificationsEnabled
        = s.notificationsEnabled ∧
      ∀ c : Bool, (s.run [.setNotificationsEnabled (.value (.bool c))]).notificationsEnabled
        = .bool c :=
  ⟨rfl, hb.symm, fun _ => rfl⟩

/-- Witness of C6: the initial store, whose flag is true. -/
theorem C6_notifications_toggle_witness :
    initial.notificationsEnabled = .bool true ∧
      (initial.run [.setNotificationsEnabled (.value (.bool false))]).notificationsEnabled
        = .bool false ∧
      (initial.run [.setNotificationsEnabled (.value (.bool false)),
              .setNotificationsEnabled (.value (.bool true))]).notificationsEnabled
        = .bool true :=
  ⟨rfl, (C6_notifications_toggle initial true rfl).1,
    (C6_notifications_toggle initial true rfl).2.1⟩

/-- C7, as stated, fails: on the initial store `setMusicVolume(1.5)` neither
leaves musicVolume unchanged (a rejection) nor stores 1.0; it stores 1.5. -/
theorem C7_counterexample :
    (setMusicVolume (.value (.num (3 / 2))) initial).musicVolume = .num (3 / 2) ∧
    ¬ ((setMusicVolume (.value (.num (3 / 2))) initial).musicVolume = initial.musicVolume ∨
       (setMusicVolume (.value (.num (3 / 2))) initial).musicVolume = .num 1) := by
  refine ⟨rfl, ?_⟩
  simp only [setMusicVolume, SetStateAction.apply, initial, JSValue.num.injEq]
  norm_num

/-- C7 (amended): for every store state `setMusicVolume(1.5)` is accepted
without validation: the resulting musicVolume is 1.5, which lies outside
`[0, 1]`, and the other fields are untouched. -/
theorem C7_setMusicVolume_unclamped (s : SettingsStore) :
    (setMusicVolume (.value (.num (3 / 2))) s).musicVolume = .num (3 / 2) ∧
    ¬ (setMusicVolume (.value (.num (3 / 2))) s).musicVolume.inUnitInterval ∧
    (setMusicVolume (.value (.num (3 / 2))) s).musicVolume ≠ .num 1 ∧
    (setMusicVolume (.value (.num (3 / 2))) s).textSize = s.textSize ∧
    (setMusicVolume (.value (.num (3 / 2))) s).soundVolume = s.soundVolume ∧
    (setMusicVolume (.value (.num (3 / 2))) s).notificationsEnabled
      = s.notificationsEnabled := by
  refine ⟨rfl, ?_, ?_, rfl, rfl, rfl⟩
  · show ¬ ((0 : ℚ) ≤ 3 / 2 ∧ (3 / 2 : ℚ) ≤ 1)
    norm_num
  · simp only [setMusicVolume, SetStateAction.apply, ne_eq, JSValue.num.injEq]
    norm_num

/-! ### The Settings screen -/

/-- The sliders and the switch of the Settings screen write to cells of the
screen; none of them changes the store. -/
theorem Settings.handle_store_of_local (st : SettingsScreen) (v : ℚ) (b : Bool) :
    (Settings.handle st (.musicSlider v)).store = st.store ∧
    (Settings.handle st (.soundSlider v)).store = st.store ∧
    (Settings.handle st (.notifSwitch b)).store = st.store :=
  ⟨rfl, rfl, rfl⟩

/-- Pressing the i-th text-size button stores that button's size in the
store's textSize and changes no other field of the store. -/
theorem Settings.handle_pressSizeButton (st : SettingsScreen) (i : Nat) (size : String)
    (hi : textSizes[i]? = some size) :
    (Settings.handle st (.pressSizeButton i)).store =
      { st.store with textSize := .str size } := by
  simp [Settings.handle, hi, setTextSize, SetStateAction.apply]

/-- C8 (the code at the failing inputs): on a screen mounted over the initial
store, moving the Music slider to 0.8, the Sound slider to 0.8 or flipping the
switch to false leaves the store's musicVolume, soundVolume and
notificationsEnabled at 0.5, 0.5 and true, while the control itself shows the
new value; and over a store whose musicVolume is 0.9 the Music slider still
shows 0.5.  Only the text-size button reaches the store. -/
theorem C8_settings_controls_bypass_store :
    (Settings.handle (Settings.mount initial) (.musicSlider (4 / 5))).store.musicVolume = .num (1 / 2) ∧
    (Settings.render (Settings.handle (Settings.mount initial) (.musicSlider (4 / 5)))).musicSlider
      = .num (4 / 5) ∧
    (Settings.handle (Settings.mount initial) (.soundSlider (4 / 5))).store.soundVolume = .num (1 / 2) ∧
    (Settings.render (Settings.handle (Settings.mount initial) (.soundSlider (4 / 5)))).soundSlider
      = .num (4 / 5) ∧
    (Settings.handle (Settings.mount initial) (.notifSwitch false)).store.notificationsEnabled
      = .bool true ∧
    (Settings.render (Settings.handle (Settings.mount initial) (.notifSwitch false))).notifSwitch
      = .bool false ∧
    (Settings.render (Settings.mount
      (setMusicVolume (.value (.num (9 / 10))) initial))).musicSlider = .num (1 / 2) ∧
    (Settings.handle (Settings.mount initial) (.pressSizeButton 2)).store.textSize = .str "large" := by
  refine ⟨?_, rfl, ?_, rfl, rfl, rfl, ?_, rfl⟩ <;>
    simp [Settings.mount, Settings.handle, Settings.render, initial] <;> norm_num

/-! ### The email sign-up handler when the provider fails -/

/-- A password of six or more code units is not the empty string. -/
theorem ne_empty_of_six_le_jsLength {password : String} (h : 6 ≤ jsLength password) :
    password ≠ "" := by
  rintro rfl
  simp [jsLength] at h

/-- With a non-empty email and a password of at least six code units the
handler reaches its `try` statement. -/
theorem SignUp.handleEmailSignUp_of_valid (P : Provider) (email password : String)
    (hemail : email ≠ "") (hpw : 6 ≤ jsLength password) :
    SignUp.handleEmailSignUp P email password =
      Eff.tryFinally
        (Eff.tryCatch (SignUp.handleEmailSignUpTry P email password)
          SignUp.handleEmailSignUpCatch)
        (setLoading SignUp.scope false) := by
  have hpassword := ne_empty_of_six_le_jsLength hpw
  have hlen : ¬ jsLength password < 6 := by omega
  funext w
  simp [SignUp.handleEmailSignUp, hemail, hpassword, hlen, bind, Eff.andThen, Eff.ret, Eff.ref,
    SignUp.scope, globalScope]

/-- When the provider rejects the request the `try` block stops at the
`await`, having set `loading` and called the provider once. -/
theorem SignUp.handleEmailSignUpTry_of_failure (P : Provider) (email password : String)
    (e : JSError) (hfail : P.createUserWithEmailAndPassword (jsTrim email) password = .error e)
    (w : HandlerState) :
    SignUp.handleEmailSignUpTry P email password w =
      (.error e, { loading := true, trace := w.trace ++
        [.setLoading true, .createUserWithEmailAndPassword (jsTrim email) password] }) := by
  simp [SignUp.handleEmailSignUpTry, hfail, bind, Eff.andThen, Eff.ret, Eff.ref, Eff.refs,
    Eff.emit, Eff.throw, setLoading, await, SignUp.scope, globalScope]

/-- The `catch` block logs the error and shows one alert titled "Error" whose
text is chosen by the error code. -/
theorem SignUp.handleEmailSignUpCatch_run (e : JSError) (w : HandlerState) :
    SignUp.handleEmailSignUpCatch e w =
      (.ok (), { w with trace := w.trace ++ [.consoleLog, .alert (.str "Error")
        (if e.code = .str "auth/email-already-in-use" then .str "Email is already in use"
         else if e.code = .str "auth/invalid-email" then .str "Invalid email address"
         else if e.code = .str "auth/weak-password" then .str "Password is too weak"
         else e.message)] }) := by
  unfold SignUp.handleEmailSignUpCatch
  split_ifs <;>
  simp [bind, Eff.andThen, Eff.ret, Eff.ref, Eff.emit, alert, consoleLog,
    SignUp.scope, globalScope]

/-- The whole run of `handleEmailSignUp` on valid input when the provider
rejects the request with `e`. -/
theorem SignUp.handleEmailSignUp_run_of_failure (P : Provider) (email password : String)
    (e : JSError) (hemail : email ≠ "") (hpw : 6 ≤ jsLength password)
    (hfail : P.createUserWithEmailAndPassword (jsTrim email) password = .error e) :
    (SignUp.handleEmailSignUp P email password).run =
      (.ok (), { loading := false, trace :=
        [.setLoading true, .createUserWithEmailAndPassword (jsTrim email) password,
         .consoleLog, .alert (.str "Error")
          (if e.code = .str "auth/email-already-in-use" then .str "Email is already in use"
           else if e.code = .str "auth/invalid-email" then .str "Invalid email address"
           else if e.code = .str "auth/weak-password" then .str "Password is too weak"
           else e.message),
         .setLoading false] }) := by
  rw [SignUp.handleEmailSignUp_of_valid P email password hemail hpw]
  simp [Eff.run, Eff.tryFinally, Eff.tryCatch,
    SignUp.handleEmailSignUpTry_of_failure P email password e hfail,
    SignUp.handleEmailSignUpCatch_run, setLoading, bind, Eff.andThen, Eff.ret, Eff.ref,
    SignUp.scope, globalScope]

/-! ### The email handlers of the start-up screen -/

/-- With a non-empty email and a non-empty password `handleEmailSignIn` never
reaches the provider: evaluating `setLoading` throws in the `try` block, the
`catch` block shows the message of that error, and the `finally` block throws
again, out of the handler. -/
theorem StartUp.handleEmailSignIn_raises (P : Provider) (email password : String)
    (hemail : email ≠ "") (hpassword : password ≠ "") :
    (StartUp.handleEmailSignIn P email password).run =
      (.error (referenceError "setLoading"),
       { loading := false, trace :=
          [.consoleLog, .alert (.str "Error") (referenceError "setLoading").message] }) := by
  simp [StartUp.handleEmailSignIn, StartUp.handleEmailSignInTry, StartUp.handleEmailSignInCatch,
    hemail, hpassword, Eff.run, Eff.tryFinally, Eff.tryCatch, setLoading, alert, consoleLog,
    bind, Eff.andThen, Eff.ret, Eff.ref, Eff.emit, Eff.throw, referenceError,
    StartUp.scope, globalScope]

/-- With a non-empty email `handleForgotPass` never reaches the provider and
ends by throwing the `ReferenceError` for `setLoading`. -/
theorem StartUp.handleForgotPass_raises (P : Provider) (email : String)
    (hemail : email ≠ "") :
    (StartUp.handleForgotPass P email).run =
      (.error (referenceError "setLoading"),
       { loading := false, trace :=
          [.consoleLog, .alert (.str "Error") (referenceError "setLoading").message] }) := by
  simp [StartUp.handleForgotPass, StartUp.handleForgotPassTry, StartUp.handleForgotPassCatch,
    hemail, Eff.run, Eff.tryFinally, Eff.tryCatch, setLoading, alert, consoleLog,
    bind, Eff.andThen, Eff.ret, Eff.ref, Eff.emit, Eff.throw, referenceError,
    StartUp.scope, globalScope]

/-- The run of `handleEmailSignIn` when the email or the password is empty:
the guard shows its alert and the handler returns. -/
theorem StartUp.handleEmailSignIn_run_of_missing (P : Provider) (email password : String)
    (h : email = "" ∨ password = "") :
    (StartUp.handleEmailSignIn P email password).run =
      (.ok (), { loading := false, trace :=
        [.alert (.str "Error") (.str "Please enter email and password")] }) := by
  by_cases hemail : email = ""
  · simp [StartUp.handleEmailSignIn, hemail, Eff.run, alert, bind, Eff.andThen, Eff.ret,
      Eff.ref, Eff.emit, StartUp.scope, globalScope]
  · have hpassword : password = "" := h.resolve_left hemail
    simp [StartUp.handleEmailSignIn, hemail, hpassword, Eff.run, alert, bind, Eff.andThen,
      Eff.ret, Eff.ref, Eff.emit, StartUp.scope, globalScope]

/-- The run of `handleForgotPass` when the email is empty. -/
theorem StartUp.handleForgotPass_run_of_missing (P : Provider) :
    (StartUp.handleForgotPass P "").run =
      (.ok (), { loading := false, trace :=
        [.alert (.str "Error") (.str "Please enter your email address first.")] }) := by
  rfl

/-- Whatever the provider and the contents of the two fields, the email
handlers of StartUp never call the provider. -/
theorem StartUp.handlers_never_call_provider (P : Provider) (email password : String) :
    (StartUp.handleEmailSignIn P email password).run.2.trace.any Effect.isProviderCall
      = false ∧
    (StartUp.handleForgotPass P email).run.2.trace.any Effect.isProviderCall = false := by
  constructor
  · by_cases h : email = "" ∨ password = ""
    · rw [StartUp.handleEmailSignIn_run_of_missing P email password h]
      rfl
    · push_neg at h
      rw [StartUp.handleEmailSignIn_raises P email password h.1 h.2]
      rfl
  · by_cases h : email = ""
    · subst h
      rw [StartUp.handleForgotPass_run_of_missing P]
      rfl
    · rw [StartUp.handleForgotPass_raises P email h]
      rfl

/-- C9: every failure the identity provider raises inside an authentication
handler is caught there.  In `handleEmailSignUp`, when the provider rejects
the request, the handler completes normally, shows exactly one alert, does not
navigate and leaves `loading` false.  In `handleEmailSignIn` and
`handleForgotPass` of StartUp the provider is never called, whatever the
fields hold, so no provider failure arises inside them. -/
theorem C9_provider_failures_caught (P : Provider) (email password : String) (e : JSError)
    (hemail : email ≠ "") (hpw : 6 ≤ jsLength password)
    (hfail : P.createUserWithEmailAndPassword (jsTrim email) password = .error e) :
    ((SignUp.handleEmailSignUp P email password).run.1 = .ok () ∧
      ((SignUp.handleEmailSignUp P email password).run.2.trace.filter Effect.isAlert).length
        = 1 ∧
      navigationsOf (SignUp.handleEmailSignUp P email password).run.2.trace = [] ∧
      (SignUp.handleEmailSignUp P email password).run.2.loading = false) ∧
    (∀ (Q : Provider) (mail pass : String),
      (StartUp.handleEmailSignIn Q mail pass).run.2.trace.any Effect.isProviderCall = false ∧
      (StartUp.handleForgotPass Q mail).run.2.trace.any Effect.isProviderCall = false) := by
  refine ⟨?_, StartUp.handlers_never_call_provider⟩
  rw [SignUp.handleEmailSignUp_run_of_failure P email password e hemail hpw hfail]
  refine ⟨rfl, ?_, ?_, rfl⟩
  · simp [Effect.isAlert]
  · simp [navigationsOf]

/-- Witness of C9: a provider that rejects the account creation with
auth/network-request-failed. -/
theorem C9_provider_failures_caught_witness :
    (SignUp.handleEmailSignUp
        (Provider.rejecting ⟨"FirebaseError", .str "auth/network-request-failed", .str "offline"⟩)
        "user@example.com" "hunter22").run.1 = .ok () ∧
    navigationsOf (SignUp.handleEmailSignUp
        (Provider.rejecting ⟨"FirebaseError", .str "auth/network-request-failed", .str "offline"⟩)
        "user@example.com" "hunter22").run.2.trace = [] :=
  ⟨(C9_provider_failures_caught _ "user@example.com" "hunter22" _ (by decide) (by decide)
      rfl).1.1,
   (C9_provider_failures_caught _ "user@example.com" "hunter22" _ (by decide) (by decide)
      rfl).1.2.2.1⟩

/-- C10: when the provider rejects the account creation with error `e`,
`handleEmailSignUp` shows exactly one alert, titled "Error", whose text is
"Email is already in use" for code auth/email-already-in-use, "Invalid email
address" for auth/invalid-email, "Password is too weak" for
auth/weak-password, and the error's own message for every other error. -/
theorem C10_signUp_failure_alert (P : Provider) (email password : String) (e : JSError)
    (hemail : email ≠ "") (hpw : 6 ≤ jsLength password)
    (hfail : P.createUserWithEmailAndPassword (jsTrim email) password = .error e) :
    (e.code = .str "auth/email-already-in-use" →
      alertsOf (SignUp.handleEmailSignUp P email password).run.2.trace
        = [(.str "Error", .str "Email is already in use")]) ∧
    (e.code = .str "auth/invalid-email" →
      alertsOf (SignUp.handleEmailSignUp P email password).run.2.trace
        = [(.str "Error", .str "Invalid email address")]) ∧
    (e.code = .str "auth/weak-password" →
      alertsOf (SignUp.handleEmailSignUp P email password).run.2.trace
        = [(.str "Error", .str "Password is too weak")]) ∧
    (e.code ≠ .str "auth/email-already-in-use" → e.code ≠ .str "auth/invalid-email" →
      e.code ≠ .str "auth/weak-password" →
      alertsOf (SignUp.handleEmailSignUp P email password).run.2.trace
        = [(.str "Error", e.message)]) := by
  rw [SignUp.handleEmailSignUp_run_of_failure P email password e hemail hpw hfail]
  refine ⟨fun h => ?_, fun h => ?_, fun h => ?_, fun h1 h2 h3 => ?_⟩
  · simp [alertsOf, h]
  · simp [alertsOf, h]
  · simp [alertsOf, h]
  · simp [alertsOf, h1, h2, h3]

/-- Witness of C10: a provider rejecting with auth/email-already-in-use, and
one rejecting with an unlisted code whose message is shown as it is. -/
theorem C10_signUp_failure_alert_witness :
    alertsOf (SignUp.handleEmailSignUp
        (Provider.rejecting ⟨"FirebaseError", .str "auth/email-already-in-use", .str "raw"⟩)
        " user@example.com " "hunter22").run.2.trace
      = [(.str "Error", .str "Email is already in use")] ∧
    alertsOf (SignUp.handleEmailSignUp
        (Provider.rejecting ⟨"FirebaseError", .str "auth/network-request-failed", .str "raw"⟩)
        " user@example.com " "hunter22").run.2.trace
      = [(.str "Error", .str "raw")] :=
  ⟨(C10_signUp_failure_alert _ " user@example.com " "hunter22" _ (by decide) (by decide) rfl).1
      rfl,
   (C10_signUp_failure_alert _ " user@example.com " "hunter22" _ (by decide) (by decide)
      rfl).2.2.2 (by decide) (by decide) (by decide)⟩

/-! ### The name-entry handler -/

/-- Dropping a prefix and then a suffix of elements satisfying `p` leaves
nothing exactly when every element satisfies `p`. -/
theorem dropWhile_both_ends_eq_nil_iff {α : Type} (p : α → Bool) (l : List α) :
    ((l.dropWhile p).reverse.dropWhile p).reverse = [] ↔ ∀ c ∈ l, p c = true := by
  rw [List.reverse_eq_nil_iff, List.dropWhile_eq_nil_iff]
  constructor
  · intro h
    apply List.dropWhile_eq_nil_iff.mp
    cases hd : l.dropWhile p with
    | nil => rfl
    | cons a t =>
      have ha : p a = true := h a (by rw [hd]; simp)
      have hne : l.dropWhile p ≠ [] := by rw [hd]; exact List.cons_ne_nil a t
      have hna := List.head_dropWhile_not p l hne
      have hhead : (l.dropWhile p).head hne = a := by
        simp only [hd, List.head_cons]
      rw [hhead, ha] at hna
      exact absurd hna (by decide)
  · intro h x hx
    rw [List.dropWhile_eq_nil_iff.mpr h] at hx
    exact absurd hx (by simp)

/-- The trimmed string is empty exactly when every character of the string is
white space. -/
theorem jsTrim_eq_empty_iff (s : String) :
    jsTrim s = "" ↔ ∀ c ∈ s.toList, isJSWhiteSpace c = true := by
  rw [← dropWhile_both_ends_eq_nil_iff isJSWhiteSpace s.toList]
  unfold jsTrim
  constructor
  · intro h
    exact congrArg String.toList h
  · intro h
    rw [h]

/-- The run of `handleNameEntry` on a name that is all white space. -/
theorem NameEntry.handleNameEntry_of_blank (name : String) (h : jsTrim name = "") :
    (NameEntry.handleNameEntry name).run =
      (.ok (), { loading := false, trace :=
        [.alert (.str "Error!") (.str "Please enter your name!")] }) := by
  simp [NameEntry.handleNameEntry, h, Eff.run, alert, bind, Eff.andThen, Eff.ret, Eff.ref,
    Eff.emit, NameEntry.scope, globalScope]

/-- The run of `handleNameEntry` on a name with a character that is not white
space. -/
theorem NameEntry.handleNameEntry_of_not_blank (name : String) (h : jsTrim name ≠ "") :
    (NameEntry.handleNameEntry name).run =
      (.ok (), { loading := false, trace :=
        [.consoleLog, .navigateWith "RoleSelect" [("userName", .str name)]] }) := by
  simp [NameEntry.handleNameEntry, h, Eff.run, bind, Eff.andThen, Eff.ret, Eff.ref, Eff.refs,
    Eff.emit, NameEntry.scope, globalScope]

/-- C13: `handleNameEntry` navigates if and only if the name contains a
character that is not white space.  For a name whose trim is empty it shows
the alert "Please enter your name!" and does not navigate; for every other
name it shows no alert and navigates once, to RoleSelect, with the payload
userName equal to the name exactly as entered. -/
theorem C13_handleNameEntry (name : String) :
    (navigationsOf (NameEntry.handleNameEntry name).run.2.trace ≠ [] ↔
      ∃ c ∈ name.toList, isJSWhiteSpace c = false) ∧
    (jsTrim name = "" →
      (NameEntry.handleNameEntry name).run =
        (.ok (), { loading := false, trace :=
          [.alert (.str "Error!") (.str "Please enter your name!")] })) ∧
    ((∃ c ∈ name.toList, isJSWhiteSpace c = false) →
      (NameEntry.handleNameEntry name).run =
        (.ok (), { loading := false, trace :=
          [.consoleLog, .navigateWith "RoleSelect" [("userName", .str name)]] })) := by
  have hiff : jsTrim name ≠ "" ↔ ∃ c ∈ name.toList, isJSWhiteSpace c = false := by
    rw [Ne, jsTrim_eq_empty_iff]
    push_neg
    simp
  refine ⟨?_, NameEntry.handleNameEntry_of_blank name, fun h =>
    NameEntry.handleNameEntry_of_not_blank name (hiff.mpr h)⟩
  by_cases h : jsTrim name = ""
  · rw [NameEntry.handleNameEntry_of_blank name h, ← hiff]
    simp [navigationsOf, h]
  · rw [NameEntry.handleNameEntry_of_not_blank name h, ← hiff]
    simp [navigationsOf, h]

/-- Witness of C13: the blank name of two spaces and a tab, and the name
" Ada " with its surrounding spaces kept in the payload. -/
theorem C13_handleNameEntry_witness :
    (NameEntry.handleNameEntry "  \t").run =
        (.ok (), { loading := false, trace :=
          [.alert (.str "Error!") (.str "Please enter your name!")] }) ∧
    (NameEntry.handleNameEntry " Ada ").run =
        (.ok (), { loading := false, trace :=
          [.consoleLog, .navigateWith "RoleSelect" [("userName", .str " Ada ")]] }) :=
  ⟨(C13_handleNameEntry "  \t").2.1 (by decide),
   (C13_handleNameEntry " Ada ").2.2 ⟨'A', by decide, by decide⟩⟩

/-! ### The guards of the email sign-up handler -/

/-- The run of `handleEmailSignUp` when the email or the password is empty. -/
theorem SignUp.handleEmailSignUp_run_of_missing (P : Provider) (email password : String)
    (h : email = "" ∨ password = "") :
    (SignUp.handleEmailSignUp P email password).run =
      (.ok (), { loading := false, trace :=
        [.alert (.str "Error") (.str "Please enter email and password")] }) := by
  by_cases hemail : email = ""
  · simp [SignUp.handleEmailSignUp, hemail, Eff.run, alert, bind, Eff.andThen, Eff.ret,
      Eff.ref, Eff.emit, SignUp.scope, globalScope]
  · have hpassword : password = "" := h.resolve_left hemail
    simp [SignUp.handleEmailSignUp, hemail, hpassword, Eff.run, alert, bind, Eff.andThen,
      Eff.ret, Eff.ref, Eff.emit, SignUp.scope, globalScope]

/-- The run of `handleEmailSignUp` when both fields are filled and the
password has fewer than six code units. -/
theorem SignUp.handleEmailSignUp_run_of_short (P : Provider) (email password : String)
    (hemail : email ≠ "") (hpassword : password ≠ "") (hlen : jsLength password < 6) :
    (SignUp.handleEmailSignUp P email password).run =
      (.ok (), { loading := false, trace :=
        [.alert (.str "Error") (.str "Password must be at least 6 characters")] }) := by
  simp [SignUp.handleEmailSignUp, hemail, hpassword, hlen, Eff.run, alert, bind, Eff.andThen,
    Eff.ret, Eff.ref, Eff.emit, SignUp.scope, globalScope]

/-- The whole run of `handleEmailSignUp` on valid input when the provider
accepts the request. -/
theorem SignUp.handleEmailSignUp_run_of_success (P : Provider) (email password uid : String)
    (hemail : email ≠ "") (hpw : 6 ≤ jsLength password)
    (hok : P.createUserWithEmailAndPassword (jsTrim email) password = .ok uid) :
    (SignUp.handleEmailSignUp P email password).run =
      (.ok (), { loading := false, trace :=
        [.setLoading true, .createUserWithEmailAndPassword (jsTrim email) password,
         .consoleLog, .alert (.str "Success") (.str "Account created successfully!"),
         .navigate "NameEntry", .setLoading false] }) := by
  rw [SignUp.handleEmailSignUp_of_valid P email password hemail hpw]
  simp [Eff.run, Eff.tryFinally, Eff.tryCatch, SignUp.handleEmailSignUpTry, hok, setLoading,
    alert, consoleLog, navigate, await, bind, Eff.andThen, Eff.ret, Eff.ref, Eff.refs,
    Eff.emit, SignUp.scope, globalScope]

/-- On valid input the handler calls the provider exactly once, with the
trimmed email and the password as entered, whatever the provider answers. -/
theorem SignUp.handleEmailSignUp_providerCalls_of_valid (P : Provider)
    (email password : String) (hemail : email ≠ "") (hpw : 6 ≤ jsLength password) :
    (SignUp.handleEmailSignUp P email password).run.2.trace.filter Effect.isProviderCall =
      [.createUserWithEmailAndPassword (jsTrim email) password] := by
  cases hres : P.createUserWithEmailAndPassword (jsTrim email) password with
  | error e =>
    rw [SignUp.handleEmailSignUp_run_of_failure P email password e hemail hpw hres]
    simp [Effect.isProviderCall]
  | ok uid =>
    rw [SignUp.handleEmailSignUp_run_of_success P email password uid hemail hpw hres]
    simp [Effect.isProviderCall]

/-- The number of code points of a string is at most its number of UTF-16
code units. -/
theorem length_le_jsLength (s : String) : s.length ≤ jsLength s := by
  have h : ∀ l : List Char,
      l.length ≤ (l.map fun c => if c.toNat < 0x10000 then 1 else 2).sum := by
    intro l
    induction l with
    | nil => simp
    | cons c t ih =>
      simp only [List.length_cons, List.map_cons, List.sum_cons]
      split_ifs <;> omega
  exact h s.toList

/-- C12: `handleEmailSignUp` calls the provider if and only if the email is
non-empty and the password has at least 6 characters (its JavaScript `length`,
counted in UTF-16 code units); when it calls, it calls once, with the trimmed
email and the unchanged password; when it does not call, it shows one alert
titled "Error" ("Please enter email and password" if a field is empty,
otherwise "Password must be at least 6 characters"), does not navigate and
leaves `loading` false. -/
theorem C12_signUp_guards (P : Provider) (email password : String) :
    ((SignUp.handleEmailSignUp P email password).run.2.trace.any Effect.isProviderCall = true
      ↔ (email ≠ "" ∧ 6 ≤ jsLength password)) ∧
    (email ≠ "" → 6 ≤ jsLength password →
      (SignUp.handleEmailSignUp P email password).run.2.trace.filter Effect.isProviderCall =
        [.createUserWithEmailAndPassword (jsTrim email) password]) ∧
    (email = "" ∨ password = "" →
      (SignUp.handleEmailSignUp P email password).run =
        (.ok (), { loading := false, trace :=
          [.alert (.str "Error") (.str "Please enter email and password")] })) ∧
    (email ≠ "" → password ≠ "" → jsLength password < 6 →
      (SignUp.handleEmailSignUp P email password).run =
        (.ok (), { loading := false, trace :=
          [.alert (.str "Error") (.str "Password must be at least 6 characters")] })) := by
  refine ⟨?_, SignUp.handleEmailSignUp_providerCalls_of_valid P email password,
    SignUp.handleEmailSignUp_run_of_missing P email password,
    SignUp.handleEmailSignUp_run_of_short P email password⟩
  by_cases hmissing : email = "" ∨ password = ""
  · rw [SignUp.handleEmailSignUp_run_of_missing P email password hmissing]
    have hno : ¬ (email ≠ "" ∧ 6 ≤ jsLength password) := by
      rintro ⟨hemail, hpw⟩
      exact ne_empty_of_six_le_jsLength hpw (hmissing.resolve_left hemail)
    simp [Effect.isProviderCall, hno]
  · push_neg at hmissing
    obtain ⟨hemail, hpassword⟩ := hmissing
    by_cases hlen : jsLength password < 6
    · rw [SignUp.handleEmailSignUp_run_of_short P email password hemail hpassword hlen]
      have hno : ¬ (email ≠ "" ∧ 6 ≤ jsLength password) := by
        rintro ⟨_, hpw⟩
        omega
      simp [Effect.isProviderCall, hno]
    · have hpw : 6 ≤ jsLength password := by omega
      have hcalls := SignUp.handleEmailSignUp_providerCalls_of_valid P email password hemail hpw
      have hany : (SignUp.handleEmailSignUp P email password).run.2.trace.any
          Effect.isProviderCall = true := by
        rw [List.any_eq_true]
        have hmem : Effect.createUserWithEmailAndPassword (jsTrim email) password ∈
            (SignUp.handleEmailSignUp P email password).run.2.trace.filter
              Effect.isProviderCall := by
          rw [hcalls]
          exact List.mem_singleton_self _
        exact ⟨_, (List.mem_filter.mp hmem).1, (List.mem_filter.mp hmem).2⟩
      simp [hany, hemail, hpw]

/-- Witness of C12: a filled form reaches the provider with the email
trimmed; an empty password and a five-letter password are each stopped by
their alert. -/
theorem C12_signUp_guards_witness :
    (SignUp.handleEmailSignUp (Provider.accepting "uid-1") " user@example.com "
        "hunter22").run.2.trace.filter Effect.isProviderCall =
      [.createUserWithEmailAndPassword "user@example.com" "hunter22"] ∧
    (SignUp.handleEmailSignUp (Provider.accepting "uid-1") "user@example.com" "").run =
      (.ok (), { loading := false, trace :=
        [.alert (.str "Error") (.str "Please enter email and password")] }) ∧
    (SignUp.handleEmailSignUp (Provider.accepting "uid-1") "user@example.com" "hunte").run =
      (.ok (), { loading := false, trace :=
        [.alert (.str "Error") (.str "Password must be at least 6 characters")] }) :=
  ⟨(C12_signUp_guards (Provider.accepting "uid-1") " user@example.com " "hunter22").2.1
      (by decide) (by decide),
   (C12_signUp_guards (Provider.accepting "uid-1") "user@example.com" "").2.2.1
      (Or.inr rfl),
   (C12_signUp_guards (Provider.accepting "uid-1") "user@example.com" "hunte").2.2.2
      (by decide) (by decide) (by decide)⟩

/-! ### The text-size buttons -/

/-- Pressing a text-size button keeps the store's textSize among the three
sizes. -/
theorem Settings.handle_pressSizeButton_isTextSize (st : SettingsScreen) (i : Nat)
    (h : st.store.textSize.isTextSize) :
    (Settings.handle st (.pressSizeButton i)).store.textSize.isTextSize := by
  cases hi : textSizes[i]? with
  | none => simpa [Settings.handle, hi] using h
  | some size =>
    rw [Settings.handle_pressSizeButton st i size hi]
    exact List.getElem?_mem hi

/-- Any sequence of text-size button presses keeps the store's textSize among
the three sizes. -/
theorem Settings.presses_isTextSize (presses : List Nat) :
    ∀ st : SettingsScreen, st.store.textSize.isTextSize →
      ((presses.map SettingsEvent.pressSizeButton).foldl Settings.handle
        st).store.textSize.isTextSize := by
  induction presses with
  | nil => intro st h; exact h
  | cons i rest ih =>
    intro st h
    exact ih _ (Settings.handle_pressSizeButton_isTextSize st i h)

/-- C14: from the default store, every sequence of text-size button presses
leaves the store's textSize among small, medium, large; the rendered buttons
stand for exactly those three sizes; and after pressing the button for a size
the store's textSize is that size and that button alone is rendered active. -/
theorem C14_text_size_buttons (presses : List Nat) (st : SettingsScreen) :
    ((presses.map SettingsEvent.pressSizeButton).foldl Settings.handle
        (Settings.mount initial)).store.textSize.isTextSize ∧
    (Settings.render st).sizeButtons.map SizeButton.size = ["small", "medium", "large"] ∧
    (∀ (i : Nat) (size : String), textSizes[i]? = some size →
      (Settings.handle st (.pressSizeButton i)).store.textSize = .str size ∧
      (Settings.render (Settings.handle st (.pressSizeButton i))).sizeButtons.filter
          (fun b => b.active) = [{ size := size, active := true }]) := by
  refine ⟨Settings.presses_isTextSize presses _ initial_inDomain.2.2, rfl, ?_⟩
  intro i size hi
  have hstore := Settings.handle_pressSizeButton st i size hi
  refine ⟨by rw [hstore], ?_⟩
  have hmem : size ∈ textSizes := List.getElem?_mem hi
  simp only [textSizes, List.mem_cons, List.mem_singleton, List.not_mem_nil, or_false] at hmem
  rcases hmem with rfl | rfl | rfl <;>
    simp [Settings.render, hstore, textSizes, List.filter]

/-- Witness of C14: pressing Large then Small from the default store, and the
buttons rendered after pressing Large. -/
theorem C14_text_size_buttons_witness :
    (([2, 0].map SettingsEvent.pressSizeButton).foldl Settings.handle
        (Settings.mount initial)).store.textSize = .str "small" ∧
    (Settings.render (Settings.handle (Settings.mount initial)
        (.pressSizeButton 2))).sizeButtons =
      [{ size := "small", active := false }, { size := "medium", active := false },
       { size := "large", active := true }] ∧
    (Settings.render (Settings.handle (Settings.mount initial)
        (.pressSizeButton 2))).sizeButtons.filter (fun b => b.active)
      = [{ size := "large", active := true }] :=
  ⟨by decide, by decide,
   ((C14_text_size_buttons [2, 0] (Settings.mount initial)).2.2 2 "large" rfl).2⟩

/-! ### The Google sign-in handler -/

/-- What a run of `try handleGoogleSignInTry catch handleGoogleSignInCatch`
does in a scope that binds the identifiers the handler mentions, with an alert
library that returns from every call: it completes normally, `isSubmitting`
is true at every awaited Google call (there is at least one) and false at the
end, and it navigates, to HomeScreen, exactly when the Google library returns
a success response. -/
theorem handleGoogleSignIn_observed (scope : List String)
    (lib : List AlertArg → Except JSError Unit) (G : GoogleSignin)
    (hscope : ∀ x ∈ ["setIsSubmitting", "GoogleSignin", "isSuccessResponse", "navigation",
      "Alert", "isErrorWithCode", "statusCodes"], x ∈ scope)
    (hlib : ∀ args, lib args = .ok ()) :
    (Eff.tryCatch (handleGoogleSignInTry scope lib G)
      (handleGoogleSignInCatch scope lib G)).run.1 = .ok () ∧
    isSubmittingAfter false (Eff.tryCatch (handleGoogleSignInTry scope lib G)
      (handleGoogleSignInCatch scope lib G)).run.2.trace = false ∧
    (isSubmittingAtGoogleCalls false (Eff.tryCatch (handleGoogleSignInTry scope lib G)
      (handleGoogleSignInCatch scope lib G)).run.2.trace = [true] ∨
     isSubmittingAtGoogleCalls false (Eff.tryCatch (handleGoogleSignInTry scope lib G)
      (handleGoogleSignInCatch scope lib G)).run.2.trace = [true, true]) ∧
    navigationsOf (Eff.tryCatch (handleGoogleSignInTry scope lib G)
      (handleGoogleSignInCatch scope lib G)).run.2.trace
      = (if G.returnsSuccess = true then ["HomeScreen"] else []) := by
  have h1 : "setIsSubmitting" ∈ scope := hscope _ (by simp)
  have h2 : "GoogleSignin" ∈ scope := hscope _ (by simp)
  have h3 : "isSuccessResponse" ∈ scope := hscope _ (by simp)
  have h4 : "navigation" ∈ scope := hscope _ (by simp)
  have h5 : "Alert" ∈ scope := hscope _ (by simp)
  have h6 : "isErrorWithCode" ∈ scope := hscope _ (by simp)
  have h7 : "statusCodes" ∈ scope := hscope _ (by simp)
  obtain ⟨hps, hsi, ier, inProgress, notAvailable⟩ := G
  rcases hps with ⟨name, code, msg⟩ | u
  · cases hcode : ier ⟨name, code, msg⟩
    · simp [handleGoogleSignInTry, handleGoogleSignInCatch, GoogleSignin.returnsSuccess,
        Eff.run, Eff.tryCatch, setIsSubmitting, alertWith, await, bind, Eff.andThen,
        Eff.ret, Eff.ref, Eff.emit, Eff.throw, h1, h2, h5, h6, hcode, hlib,
        isSubmittingAfter, isSubmittingAtGoogleCalls, navigationsOf]
    · by_cases hip : code = inProgress
      · subst hip
        simp [handleGoogleSignInTry, handleGoogleSignInCatch, GoogleSignin.returnsSuccess,
          Eff.run, Eff.tryCatch, setIsSubmitting, alertWith, await, bind, Eff.andThen,
          Eff.ret, Eff.ref, Eff.emit, Eff.throw, h1, h2, h5, h6, h7, hcode, hlib,
          isSubmittingAfter, isSubmittingAtGoogleCalls, navigationsOf]
      · by_cases hna : code = notAvailable
        · subst hna
          simp [handleGoogleSignInTry, handleGoogleSignInCatch, GoogleSignin.returnsSuccess,
            Eff.run, Eff.tryCatch, setIsSubmitting, alertWith, await, bind, Eff.andThen,
            Eff.ret, Eff.ref, Eff.emit, Eff.throw, h1, h2, h5, h6, h7, hcode, hip, hlib,
            isSubmittingAfter, isSubmittingAtGoogleCalls, navigationsOf]
        · simp [handleGoogleSignInTry, handleGoogleSignInCatch, GoogleSignin.returnsSuccess,
            Eff.run, Eff.tryCatch, setIsSubmitting, alertWith, await, bind, Eff.andThen,
            Eff.ret, Eff.ref, Eff.emit, Eff.throw, h1, h2, h5, h6, h7, hcode, hip, hna, hlib,
            isSubmittingAfter, isSubmittingAtGoogleCalls, navigationsOf]
  · rcases hsi with ⟨name, code, msg⟩ | response
    · cases hcode : ier ⟨name, code, msg⟩
      · simp [handleGoogleSignInTry, handleGoogleSignInCatch, GoogleSignin.returnsSuccess,
          Eff.run, Eff.tryCatch, setIsSubmitting, alertWith, await, bind, Eff.andThen,
          Eff.ret, Eff.ref, Eff.emit, Eff.throw, h1, h2, h5, h6, hcode, hlib,
          isSubmittingAfter, isSubmittingAtGoogleCalls, navigationsOf]
      · by_cases hip : code = inProgress
        · subst hip
          simp [handleGoogleSignInTry, handleGoogleSignInCatch, GoogleSignin.returnsSuccess,
            Eff.run, Eff.tryCatch, setIsSubmitting, alertWith, await, bind, Eff.andThen,
            Eff.ret, Eff.ref, Eff.emit, Eff.throw, h1, h2, h5, h6, h7, hcode, hlib,
            isSubmittingAfter, isSubmittingAtGoogleCalls, navigationsOf]
        · by_cases hna : code = notAvailable
          · subst hna
            simp [handleGoogleSignInTry, handleGoogleSignInCatch, GoogleSignin.returnsSuccess,
              Eff.run, Eff.tryCatch, setIsSubmitting, alertWith, await, bind, Eff.andThen,
              Eff.ret, Eff.ref, Eff.emit, Eff.throw, h1, h2, h5, h6, h7, hcode, hip, hlib,
              isSubmittingAfter, isSubmittingAtGoogleCalls, navigationsOf]
          · simp [handleGoogleSignInTry, handleGoogleSignInCatch, GoogleSignin.returnsSuccess,
              Eff.run, Eff.tryCatch, setIsSubmitting, alertWith, await, bind, Eff.andThen,
              Eff.ret, Eff.ref, Eff.emit, Eff.throw, h1, h2, h5, h6, h7, hcode, hip, hna,
              hlib, isSubmittingAfter, isSubmittingAtGoogleCalls, navigationsOf]
    · cases response <;>
        simp [handleGoogleSignInTry, handleGoogleSignInCatch, GoogleSignin.returnsSuccess,
          isSuccessResponse, Eff.run, Eff.tryCatch, setIsSubmitting, alertWith, navigate,
          await, bind, Eff.andThen, Eff.ret, Eff.ref, Eff.emit, Eff.throw, h1, h2, h3, h4, h5,
          hlib, isSubmittingAfter, isSubmittingAtGoogleCalls, navigationsOf]

/-- With the Android alert library, the `catch` block throws at its alert for
every error that has a code, before it reaches `setIsSubmitting(false)`: each
of the three calls passes the buttons as the message and the options object
as the buttons.  The block adds the alert call to the trace and nothing else. -/
theorem handleGoogleSignInCatch_android_of_code (scope : List String) (G : GoogleSignin)
    (e : JSError) (w : HandlerState)
    (hscope : ∀ x ∈ ["Alert", "isErrorWithCode", "statusCodes"], x ∈ scope)
    (hcode : G.isErrorWithCode e = true) :
    (handleGoogleSignInCatch scope androidAlert G e w).1
      = .error (typeError "buttons.slice is not a function") ∧
    ∃ title, (handleGoogleSignInCatch scope androidAlert G e w).2.trace
      = w.trace ++ [.alertWith [.value title, .buttons ["OK"], .options true]] := by
  have h5 : "Alert" ∈ scope := hscope _ (by simp)
  have h6 : "isErrorWithCode" ∈ scope := hscope _ (by simp)
  have h7 : "statusCodes" ∈ scope := hscope _ (by simp)
  obtain ⟨name, code, msg⟩ := e
  obtain ⟨hps, hsi, ier, inProgress, notAvailable⟩ := G
  have hcode2 : ier ⟨name, code, msg⟩ = true := hcode
  by_cases hip : code = inProgress
  · subst hip
    simp [handleGoogleSignInCatch, alertWith, await, androidAlert, bind, Eff.andThen, Eff.ret,
      Eff.ref, Eff.emit, Eff.throw, h5, h6, h7, hcode2]
  · by_cases hna : code = notAvailable
    · subst hna
      simp [handleGoogleSignInCatch, alertWith, await, androidAlert, bind, Eff.andThen,
        Eff.ret, Eff.ref, Eff.emit, Eff.throw, h5, h6, h7, hcode2, hip]
    · simp [handleGoogleSignInCatch, alertWith, await, androidAlert, bind, Eff.andThen,
        Eff.ret, Eff.ref, Eff.emit, Eff.throw, h5, h6, h7, hcode2, hip, hna]

/-- C15 (the code at the failing input): on Android, when `hasPlayServices()`
rejects with the code `statusCodes.PLAY_SERVICES_NOT_AVAILABLE`, the `catch`
block of `handleGoogleSignIn` calls `Alert.alert` with the title, the buttons
and the options but no message; the alert library throws a `TypeError` at the
options object it finds in the place of the buttons, `setIsSubmitting(false)`
is never reached, and the handler of SignUp and of StartUp ends by raising
with `isSubmitting` still true, so the Google button stays disabled. -/
theorem C15_google_isSubmitting_left_true :
    (SignUp.handleGoogleSignIn androidAlert GoogleSignin.noPlayServices).run
      = (.error (typeError "buttons.slice is not a function"),
         { loading := false, trace :=
            [.setIsSubmitting true, .hasPlayServices,
             .alertWith [.value (.str "Play services not available"), .buttons ["OK"],
               .options true]] }) ∧
    isSubmittingAfter false
      (SignUp.handleGoogleSignIn androidAlert GoogleSignin.noPlayServices).run.2.trace
      = true ∧
    (StartUp.handleGoogleSignIn androidAlert GoogleSignin.noPlayServices).run
      = (.error (typeError "buttons.slice is not a function"),
         { loading := false, trace :=
            [.setIsSubmitting true, .hasPlayServices,
             .alertWith [.value (.str "Play services not available"), .buttons ["OK"],
               .options true]] }) ∧
    isSubmittingAfter false
      (StartUp.handleGoogleSignIn androidAlert GoogleSignin.noPlayServices).run.2.trace
      = true ∧
    androidAlert [.value (.str "Login Failed"),
      .value (.str "Your Google sign-in was unsuccessful. Please try again."),
      .buttons ["OK"], .options true] = .ok () := by
  exact ⟨rfl, rfl, rfl, rfl, rfl⟩

end ELLA
